import Mathlib

/-!
Verification of `kedro_datasets/snowflake/snowpark_dataset.py`
(class `SnowParkDataSet`), a configuration-resolution shim that loads and
saves Snowpark dataframes.

The embedding follows the Python source line by line:

* Python dictionaries appear as association lists `List (String × String)`;
  `dict.update` with a key that is present overwrites the value in place,
  otherwise the key is appended, exactly as `dictSet` below does.
* Python truthiness of an optional string argument (`if not database:`) is
  `pyTruthy`: a `None` default or the empty string is falsy.
* `raise DataSetError(msg)` becomes `Except.error msg`.
* The vendor session is identified by the connection parameters handed to
  `_get_session`; the try/except around `get_active_session` lives entirely
  in the vendor SDK, so session acquisition is modelled as a deterministic
  function of those parameters, and `init` additionally returns the list of
  connection-parameter mappings that were ever passed to `_get_session`
  (empty on the error paths, since every `raise` in `__init__` happens
  before the `_get_session` call).
* Vendor calls made by `_load` / `_save` / `_exists` are reified as data:
  `_load` returns the `session.table` handle, `_save` returns the
  `save_as_table` call that would be issued, and `_exists` consumes the
  rows a backend returns for the generated SQL text.
-/

/-- A Python dictionary with string keys and string values, in insertion
order. -/
abbrev PyDict := List (String × String)

/-- `d[k] = v` / one step of `d.update({k: v})`: if the key is present its
value is overwritten in place, otherwise the pair is appended at the end,
as CPython dictionaries behave. -/
def dictSet (d : PyDict) (k v : String) : PyDict :=
  if d.any (fun p => p.1 = k) then
    d.map (fun p => if p.1 = k then (k, v) else p)
  else d ++ [(k, v)]

/-- `d[k]` / `k in d`: the value stored under the first occurrence of the
key, if any. -/
def dictGet (d : PyDict) (k : String) : Option String :=
  match d with
  | [] => none
  | p :: rest => if p.1 = k then some p.2 else dictGet rest k

/-- Python truthiness of an optional string parameter whose default is
`None`: falsy when absent or the empty string. -/
def pyTruthy : Option String → Bool
  | none => false
  | some s => s ≠ ""

/-- Python truthiness of the optional `credentials` dictionary: falsy when
absent (`None`) or empty. -/
def credsTruthy : Option PyDict → Bool
  | none => false
  | some c => c ≠ []

/-- `"database" in credentials and credentials["database"]` (and likewise
for `"schema"`): the key is present and its value is truthy. -/
def credHasTruthy (c : PyDict) (k : String) : Bool :=
  match dictGet c k with
  | some v => v ≠ ""
  | none => false

/-- A pandas dataframe, opaque to the adapter: rows of cells. -/
abbrev PandasDataFrame := List (List String)

/-- The vendor session.  `_get_session` either reuses the ambient active
session or creates one from the connection parameters; both live in the
vendor SDK, so the session is identified here by the connection parameters
it was requested with. -/
structure Session where
  params : PyDict
  deriving DecidableEq, Repr

/-- A Snowpark dataframe as the adapter can produce one: either the lazy
table handle `session.table(name)` or the result of
`session.create_dataframe(data)` on a pandas dataframe. -/
inductive SpDataFrame where
  | table (session : Session) (name : String)
  | create_dataframe (session : Session) (data : PandasDataFrame)
  deriving DecidableEq, Repr

/-- The argument `data` of `_save`: already a native Snowpark dataframe, or
a generic (pandas) one. -/
inductive InputData where
  | pandas (df : PandasDataFrame)
  | snowpark (df : SpDataFrame)
  deriving DecidableEq, Repr

/-- The `sp_df.write.save_as_table(table_name, **save_args)` call issued by
`_save`, reified: the dataframe written, the table identifier (the source
passes the three-part list `[database, schema, table_name]`), and the
keyword arguments forwarded. -/
structure SaveCall where
  df : SpDataFrame
  table : List String
  args : PyDict
  deriving DecidableEq, Repr

/-- The state of a constructed `SnowParkDataSet` instance: the attributes
`__init__` assigns on `self`. -/
structure SnowParkDataSet where
  _table_name : String
  _database : String
  _schema : String
  _load_args : PyDict
  _save_args : PyDict
  _connection_parameters : PyDict
  _session : Session
  deriving DecidableEq, Repr

/-- `_get_session`: obtain the vendor session for the given connection
parameters (active-session reuse happens inside the vendor SDK). -/
def SnowParkDataSet._get_session (connection_parameters : PyDict) : Session :=
  ⟨connection_parameters⟩

/-- What `__init__` produces on success: the instance, and the contents of
the caller-supplied `credentials` dictionary after construction (the source
aliases it as `connection_parameters` and mutates it with `update`). -/
structure InitOutcome where
  dataset : SnowParkDataSet
  credentials_after : PyDict
  deriving DecidableEq, Repr

/-- `SnowParkDataSet.__init__`.  Returns the outcome (or the
`DataSetError` message raised) together with the trace of
connection-parameter mappings passed to `_get_session`; every `raise`
happens before the `_get_session` call, so the trace is empty on error. -/
def SnowParkDataSet.init (table_name : String) (schema : Option String)
    (database : Option String) (load_args : Option PyDict)
    (save_args : Option PyDict) (credentials : Option PyDict) :
    Except String InitOutcome × List PyDict :=
  if table_name = "" then
    (.error "table_name argument cannot be empty.", [])
  else if !credsTruthy credentials then
    (.error "credentials argument cannot be empty.", [])
  else
    let c := credentials.getD []
    let dbRes : Except String String :=
      if pyTruthy database then .ok (database.getD "")
      else if credHasTruthy c "database" then .ok ((dictGet c "database").getD "")
      else .error "database must be provided by credentials or dataset."
    match dbRes with
    | .error e => (.error e, [])
    | .ok db =>
      let schRes : Except String String :=
        if pyTruthy schema then .ok (schema.getD "")
        else if credHasTruthy c "schema" then .ok ((dictGet c "schema").getD "")
        else .error "schema must be provided by credentials or dataset."
      match schRes with
      | .error e => (.error e, [])
      | .ok sch =>
        let la := load_args.getD []
        let sa := save_args.getD []
        let connection_parameters := dictSet (dictSet c "database" db) "schema" sch
        let session := SnowParkDataSet._get_session connection_parameters
        (.ok { dataset :=
                 { _table_name := table_name
                   _database := db
                   _schema := sch
                   _load_args := la
                   _save_args := sa
                   _connection_parameters := connection_parameters
                   _session := session }
               credentials_after := connection_parameters },
         [connection_parameters])

/-- `_describe`: the static metadata mapping, in the insertion order of the
source (`table_name`, `database`, `schema`). -/
def SnowParkDataSet._describe (ds : SnowParkDataSet) : PyDict :=
  [("table_name", ds._table_name), ("database", ds._database),
   ("schema", ds._schema)]

/-- `_load`: `self._session.table(".".join([database, schema, table_name]))`. -/
def SnowParkDataSet._load (ds : SnowParkDataSet) : SpDataFrame :=
  let table_name := [ds._database, ds._schema, ds._table_name]
  SpDataFrame.table ds._session (String.intercalate "." table_name)

/-- `_save`: convert a non-native dataframe via the session, then write it
to the three-part table identifier with the stored save arguments. -/
def SnowParkDataSet._save (ds : SnowParkDataSet) (data : InputData) : SaveCall :=
  let sp_df := match data with
    | .pandas d => SpDataFrame.create_dataframe ds._session d
    | .snowpark d => d
  let table_name := [ds._database, ds._schema, ds._table_name]
  { df := sp_df, table := table_name, args := ds._save_args }

/-- The SQL text `_exists` builds by `str.format` on the count-query
template. -/
def SnowParkDataSet.existsQuery (ds : SnowParkDataSet) : String :=
  "SELECT COUNT(*) FROM " ++ ds._database ++
    ".INFORMATION_SCHEMA.TABLES WHERE TABLE_SCHEMA = \x27" ++ ds._schema ++
    "\x27 AND TABLE_NAME = \x27" ++ ds._table_name ++ "\x27"

/-- `_exists`: run the count query through the backend (`collect` modelled
as the list of rows the backend returns for the SQL text) and return
`rows[0][0] == 1`.  The double indexing has no emptiness guard: on an
empty result set, or an empty first row, the Python code raises
`IndexError`, modelled as `none`. -/
def SnowParkDataSet._exists (ds : SnowParkDataSet)
    (backend : String → List (List Int)) : Option Bool :=
  let rows := backend ds.existsQuery
  match rows with
  | [] => none
  | r :: _ =>
    match r with
    | [] => none
    | c :: _ => some (c == 1)

/-- An operation invoked on a constructed instance. -/
inductive Op where
  | load
  | save (data : InputData)
  | exist
  | describe

/-- The observable result of one operation. -/
inductive Output where
  | loaded (df : SpDataFrame)
  | saved (call : SaveCall)
  | existed (b : Option Bool)
  | described (m : PyDict)
  deriving DecidableEq, Repr

/-- Run one operation: the output, and the instance state afterwards.  None
of `_load`, `_save`, `_exists`, `_describe` assigns any attribute on
`self`, so the state after each call is the state before it. -/
def SnowParkDataSet.runOp (ds : SnowParkDataSet)
    (backend : String → List (List Int)) : Op → Output × SnowParkDataSet
  | .load => (.loaded ds._load, ds)
  | .save d => (.saved (ds._save d), ds)
  | .exist => (.existed (ds._exists backend), ds)
  | .describe => (.described ds._describe, ds)

/-- The instance state after a sequence of operations. -/
def SnowParkDataSet.runOps (ds : SnowParkDataSet)
    (backend : String → List (List Int)) : List Op → SnowParkDataSet
  | [] => ds
  | op :: ops => ((ds.runOp backend op).2).runOps backend ops

/-- The credentials mapping of the spec example: account `a`, user `u`,
password `p`, database `meteorology`, schema `observations`. -/
def exampleCreds : PyDict :=
  [("account", "a"), ("user", "u"), ("password", "p"),
   ("database", "meteorology"), ("schema", "observations")]

/-- The outcome of constructing with `table_name = "weather_data"`, no
explicit schema or database, and `exampleCreds`. -/
def exampleOutcome : InitOutcome :=
  { dataset :=
      { _table_name := "weather_data"
        _database := "meteorology"
        _schema := "observations"
        _load_args := []
        _save_args := []
        _connection_parameters := exampleCreds
        _session := ⟨exampleCreds⟩ }
    credentials_after := exampleCreds }

/-- `exampleOutcome` with a nonempty `load_args` mapping. -/
def exampleOutcomeAlt : InitOutcome :=
  { exampleOutcome with
    dataset := { exampleOutcome.dataset with _load_args := [("x", "y")] } }

theorem dictGet_dictSet_self (d : PyDict) (k v : String) :
    dictGet (dictSet d k v) k = some v := by
  unfold dictSet
  split
  · rename_i hany
    induction d with
    | nil => simp at hany
    | cons p d ih =>
      by_cases hp : p.1 = k
      · simp [dictGet, hp]
      · simp only [List.any_cons, Bool.or_eq_true, decide_eq_true_eq] at hany
        have hd : d.any (fun p => decide (p.1 = k)) = true := by
          rcases hany with hh | hh
          · exact absurd hh hp
          · exact hh
        simp [dictGet, hp, ih hd]
  · rename_i hany
    induction d with
    | nil => simp [dictGet]
    | cons p d ih =>
      simp only [List.any_cons, Bool.or_eq_true, decide_eq_true_eq, not_or] at hany
      simpa [dictGet, hany.1] using ih (by simp [hany.2])

theorem dictGet_map_set (d : PyDict) (k v k2 : String) (h : k2 ≠ k) :
    dictGet (d.map (fun p => if p.1 = k then (k, v) else p)) k2 = dictGet d k2 := by
  induction d with
  | nil => simp [dictGet]
  | cons p d ih =>
    by_cases hp : p.1 = k
    · simp [dictGet, hp, Ne.symm h, ih]
    · simp [dictGet, hp, ih]

theorem dictGet_append_single (d : PyDict) (k v k2 : String) (h : k2 ≠ k) :
    dictGet (d ++ [(k, v)]) k2 = dictGet d k2 := by
  induction d with
  | nil => simp [dictGet, Ne.symm h]
  | cons p d ih =>
    by_cases hp : p.1 = k2
    · simp [dictGet, hp]
    · simp [dictGet, hp, ih]

theorem dictGet_dictSet_other (d : PyDict) (k v k2 : String) (h : k2 ≠ k) :
    dictGet (dictSet d k v) k2 = dictGet d k2 := by
  unfold dictSet
  split
  · exact dictGet_map_set d k v k2 h
  · exact dictGet_append_single d k v k2 h

/-- Characterization of every successful construction: the stored fields in
terms of the arguments, the mutated credentials dictionary, the session,
and the session-acquisition trace. -/
theorem SnowParkDataSet.init_ok_spec (tn : String) (sch db : Option String)
    (la sa : Option PyDict) (cr : Option PyDict) (out : InitOutcome)
    (tr : List PyDict)
    (h : SnowParkDataSet.init tn sch db la sa cr = (.ok out, tr)) :
    out.dataset._table_name = tn ∧
    out.dataset._database = (if pyTruthy db then db.getD ""
      else (dictGet (cr.getD []) "database").getD "") ∧
    out.dataset._schema = (if pyTruthy sch then sch.getD ""
      else (dictGet (cr.getD []) "schema").getD "") ∧
    out.dataset._load_args = la.getD [] ∧
    out.dataset._save_args = sa.getD [] ∧
    out.dataset._connection_parameters =
      dictSet (dictSet (cr.getD []) "database" out.dataset._database)
        "schema" out.dataset._schema ∧
    out.credentials_after = out.dataset._connection_parameters ∧
    out.dataset._session = ⟨out.dataset._connection_parameters⟩ ∧
    tr = [out.dataset._connection_parameters] := by
  by_cases h1 : tn = ""
  · simp [SnowParkDataSet.init, h1] at h
  by_cases h2 : credsTruthy cr
  · by_cases h3 : pyTruthy db
    · by_cases h4 : pyTruthy sch
      · simp [SnowParkDataSet.init, h1, h2, h3, h4] at h
        obtain ⟨hout, htr⟩ := h
        subst hout htr
        simp [SnowParkDataSet._get_session, h3, h4]
      · by_cases h5 : credHasTruthy (cr.getD []) "schema"
        · simp [SnowParkDataSet.init, h1, h2, h3, h4, h5] at h
          obtain ⟨hout, htr⟩ := h
          subst hout htr
          simp [SnowParkDataSet._get_session, h3, h4]
        · simp [SnowParkDataSet.init, h1, h2, h3, h4, h5] at h
    · by_cases h6 : credHasTruthy (cr.getD []) "database"
      · by_cases h4 : pyTruthy sch
        · simp [SnowParkDataSet.init, h1, h2, h3, h4, h6] at h
          obtain ⟨hout, htr⟩ := h
          subst hout htr
          simp [SnowParkDataSet._get_session, h3, h4]
        · by_cases h5 : credHasTruthy (cr.getD []) "schema"
          · simp [SnowParkDataSet.init, h1, h2, h3, h4, h5, h6] at h
            obtain ⟨hout, htr⟩ := h
            subst hout htr
            simp [SnowParkDataSet._get_session, h3, h4]
          · simp [SnowParkDataSet.init, h1, h2, h3, h4, h5, h6] at h
      · simp [SnowParkDataSet.init, h1, h2, h3, h6] at h
  · simp [SnowParkDataSet.init, h1, h2] at h

/-- C1: every construction with a missing or empty table name, a missing or
empty credentials mapping, or a database or schema resolvable from neither
the explicit argument nor the credentials mapping, raises a DataSetError
synchronously, and no session is acquired or created (the trace of
`_get_session` calls is empty). -/
theorem init_config_error_no_session (tn : String) (sch db : Option String)
    (la sa : Option PyDict) (cr : Option PyDict)
    (h : tn = "" ∨ credsTruthy cr = false ∨
      (pyTruthy db = false ∧ credHasTruthy (cr.getD []) "database" = false) ∨
      (pyTruthy sch = false ∧ credHasTruthy (cr.getD []) "schema" = false)) :
    ∃ e, SnowParkDataSet.init tn sch db la sa cr = (.error e, []) := by
  by_cases h1 : tn = ""
  · exact ⟨"table_name argument cannot be empty.",
      by simp [SnowParkDataSet.init, h1]⟩
  by_cases h2 : credsTruthy cr
  · rcases h with hh | hh | ⟨ha, hb⟩ | ⟨ha, hb⟩
    · exact absurd hh h1
    · rw [hh] at h2; exact absurd h2 (by simp)
    · exact ⟨"database must be provided by credentials or dataset.",
        by simp [SnowParkDataSet.init, h1, h2, ha, hb]⟩
    · by_cases h3 : pyTruthy db
      · exact ⟨"schema must be provided by credentials or dataset.",
          by simp [SnowParkDataSet.init, h1, h2, h3, ha, hb]⟩
      · by_cases h4 : credHasTruthy (cr.getD []) "database"
        · exact ⟨"schema must be provided by credentials or dataset.",
            by simp [SnowParkDataSet.init, h1, h2, h3, h4, ha, hb]⟩
        · exact ⟨"database must be provided by credentials or dataset.",
            by simp [SnowParkDataSet.init, h1, h2, h3, h4]⟩
  · exact ⟨"credentials argument cannot be empty.",
      by simp [SnowParkDataSet.init, h1, h2]⟩

/-- Witness for C1 at the concrete input of an empty table name. -/
theorem init_config_error_no_session_witness :
    ∃ e, SnowParkDataSet.init "" none none none none (some exampleCreds) =
      (.error e, []) :=
  init_config_error_no_session "" none none none none (some exampleCreds)
    (Or.inl rfl)

/-- C2 counterexample: constructing with the explicit argument
`database = some ""` (given, but empty) and credentials carrying
`database = "d"` succeeds and resolves the database to `"d"`, not to the
explicitly given value `""` — so a given explicit argument does not always
take precedence. -/
theorem init_empty_explicit_arg_not_precedent :
    ((SnowParkDataSet.init "t" none (some "") none none
        (some [("account", "a"), ("database", "d"), ("schema", "s")])).1.toOption.map
      (fun o => o.dataset._database)) = some "d" ∧ ("d" : String) ≠ "" := by
  exact ⟨by rfl, by decide⟩

/-- C2 (amended): for every successful construction, the resolved database
and schema equal the explicit constructor arguments when those are given as
non-empty strings, and equal the credentials entries otherwise — an absent
or empty explicit argument falls back to the credentials mapping. -/
theorem init_resolution_precedence (tn : String) (sch db : Option String)
    (la sa : Option PyDict) (c : PyDict) (out : InitOutcome) (tr : List PyDict)
    (h : SnowParkDataSet.init tn sch db la sa (some c) = (.ok out, tr)) :
    out.dataset._database =
      (if pyTruthy db then db.getD "" else (dictGet c "database").getD "") ∧
    out.dataset._schema =
      (if pyTruthy sch then sch.getD "" else (dictGet c "schema").getD "") := by
  have hs := SnowParkDataSet.init_ok_spec tn sch db la sa (some c) out tr h
  exact ⟨hs.2.1, hs.2.2.1⟩

/-- Witness for C2 at the spec example (database and schema supplied only
via credentials). -/
theorem init_resolution_precedence_witness :
    exampleOutcome.dataset._database =
      (if pyTruthy none then (none : Option String).getD ""
       else (dictGet exampleCreds "database").getD "") ∧
    exampleOutcome.dataset._schema =
      (if pyTruthy none then (none : Option String).getD ""
       else (dictGet exampleCreds "schema").getD "") :=
  init_resolution_precedence "weather_data" none none none none exampleCreds
    exampleOutcome [exampleCreds] (by rfl)

/-- C3: `_exists` returns exactly the test `rows[0][0] == 1` on the rows
the backend reports for the metadata count query: true iff the count is
exactly one, false for zero and for any count other than one. -/
theorem exists_iff_count_one (ds : SnowParkDataSet)
    (backend : String → List (List Int)) (c : Int) (r : List Int)
    (rest : List (List Int))
    (h : backend ds.existsQuery = (c :: r) :: rest) :
    ds._exists backend = some (c == 1) ∧
      (ds._exists backend = some true ↔ c = 1) := by
  unfold SnowParkDataSet._exists
  rw [h]
  simp

/-- Witness for C3 at a concrete count of two: the result is false. -/
theorem exists_iff_count_one_witness :
    exampleOutcome.dataset._exists (fun _ => [[2]]) = some ((2 : Int) == 1) ∧
      (exampleOutcome.dataset._exists (fun _ => [[2]]) = some true ↔
        (2 : Int) = 1) :=
  exists_iff_count_one exampleOutcome.dataset (fun _ => [[2]]) 2 [] [] rfl

/-- C4: for every constructed instance and every input dataframe, `_save`
writes to the three-part fully qualified table identifier (resolved
database, schema, table name), passes a native Snowpark dataframe through
unchanged and converts a pandas dataframe via the session, and forwards
the merged save-argument mapping verbatim to the write call. -/
theorem save_writes_qualified_table_verbatim_args (tn : String)
    (sch db : Option String) (la sa : Option PyDict) (cr : Option PyDict)
    (out : InitOutcome) (tr : List PyDict)
    (h : SnowParkDataSet.init tn sch db la sa cr = (.ok out, tr))
    (data : InputData) :
    (out.dataset._save data).table =
      [out.dataset._database, out.dataset._schema, out.dataset._table_name] ∧
    (out.dataset._save data).args = sa.getD [] ∧
    (out.dataset._save data).df = (match data with
      | .pandas d => SpDataFrame.create_dataframe out.dataset._session d
      | .snowpark d => d) := by
  have hs := SnowParkDataSet.init_ok_spec tn sch db la sa cr out tr h
  refine ⟨rfl, ?_, ?_⟩
  · simpa [SnowParkDataSet._save] using hs.2.2.2.2.1
  · cases data <;> rfl

/-- Witness for C4 at the spec example and a native input dataframe. -/
theorem save_writes_qualified_table_verbatim_args_witness :
    (exampleOutcome.dataset._save
        (.snowpark (SpDataFrame.table ⟨exampleCreds⟩ "t"))).table =
      [exampleOutcome.dataset._database, exampleOutcome.dataset._schema,
       exampleOutcome.dataset._table_name] ∧
    (exampleOutcome.dataset._save
        (.snowpark (SpDataFrame.table ⟨exampleCreds⟩ "t"))).args =
      (none : Option PyDict).getD [] ∧
    (exampleOutcome.dataset._save
        (.snowpark (SpDataFrame.table ⟨exampleCreds⟩ "t"))).df =
      SpDataFrame.table ⟨exampleCreds⟩ "t" :=
  save_writes_qualified_table_verbatim_args "weather_data" none none none
    none (some exampleCreds) exampleOutcome [exampleCreds] (by rfl)
    (.snowpark (SpDataFrame.table ⟨exampleCreds⟩ "t"))

/-- C5: `_load` returns the session table handle for the name obtained by
joining the resolved database, schema and table name with a dot; in
particular the spec example (table `weather_data`, database and schema
supplied only via credentials) yields
`meteorology.observations.weather_data`. -/
theorem load_returns_fully_qualified_table :
    (∀ ds : SnowParkDataSet, ds._load = SpDataFrame.table ds._session
        (ds._database ++ "." ++ ds._schema ++ "." ++ ds._table_name)) ∧
    ((SnowParkDataSet.init "weather_data" none none none none
        (some exampleCreds)).1.toOption.map (fun o => o.dataset._load)) =
      some (SpDataFrame.table ⟨exampleCreds⟩
        "meteorology.observations.weather_data") := by
  constructor
  · intro ds
    simp [SnowParkDataSet._load, String.intercalate, String.intercalate.go]
  · rfl

/-- C6: every successful construction mutates the caller-supplied
credentials dictionary in place: afterwards its `database` and `schema`
keys hold the resolved values, every other key is untouched, and the very
same mapping is reused as the stored connection parameters. -/
theorem init_mutates_credentials_in_place (tn : String)
    (sch db : Option String) (la sa : Option PyDict) (c : PyDict)
    (out : InitOutcome) (tr : List PyDict)
    (h : SnowParkDataSet.init tn sch db la sa (some c) = (.ok out, tr)) :
    dictGet out.credentials_after "database" = some out.dataset._database ∧
    dictGet out.credentials_after "schema" = some out.dataset._schema ∧
    out.dataset._connection_parameters = out.credentials_after ∧
    ∀ k, k ≠ "database" → k ≠ "schema" →
      dictGet out.credentials_after k = dictGet c k := by
  have hs := SnowParkDataSet.init_ok_spec tn sch db la sa (some c) out tr h
  obtain ⟨-, -, -, -, -, hconn, hcred, -, -⟩ := hs
  rw [hcred, hconn]
  refine ⟨?_, ?_, rfl, ?_⟩
  · rw [dictGet_dictSet_other _ _ _ _ (by decide), dictGet_dictSet_self]
  · rw [dictGet_dictSet_self]
  · intro k hk1 hk2
    rw [dictGet_dictSet_other _ _ _ _ hk2, dictGet_dictSet_other _ _ _ _ hk1]
    rfl

/-- Witness for C6 at the spec example: the overwritten `database` key and
an untouched `account` key. -/
theorem init_mutates_credentials_in_place_witness :
    dictGet exampleOutcome.credentials_after "database" =
      some exampleOutcome.dataset._database ∧
    dictGet exampleOutcome.credentials_after "account" =
      dictGet exampleCreds "account" :=
  ⟨(init_mutates_credentials_in_place "weather_data" none none none none
      exampleCreds exampleOutcome [exampleCreds] (by rfl)).1,
   (init_mutates_credentials_in_place "weather_data" none none none none
      exampleCreds exampleOutcome [exampleCreds] (by rfl)).2.2.2 "account"
     (by decide) (by decide)⟩

/-- C7: the resolved configuration is fixed at construction: no sequence of
load, save, exists or describe operations changes the stored table name,
database or schema. -/
theorem ops_preserve_resolved_config (ds : SnowParkDataSet)
    (backend : String → List (List Int)) (ops : List Op) :
    (ds.runOps backend ops)._table_name = ds._table_name ∧
    (ds.runOps backend ops)._database = ds._database ∧
    (ds.runOps backend ops)._schema = ds._schema := by
  induction ops generalizing ds with
  | nil => exact ⟨rfl, rfl, rfl⟩
  | cons op ops ih =>
    have hstep : (ds.runOp backend op).2 = ds := by cases op <;> rfl
    simpa [SnowParkDataSet.runOps, hstep] using ih ds

/-- C8: the result of `_load` does not depend on `load_args`: two instances
constructed with identical parameters except for `load_args` load the same
dataframe handle. -/
theorem load_independent_of_load_args (tn : String) (sch db : Option String)
    (la1 la2 sa : Option PyDict) (cr : Option PyDict) (o1 o2 : InitOutcome)
    (t1 t2 : List PyDict)
    (h1 : SnowParkDataSet.init tn sch db la1 sa cr = (.ok o1, t1))
    (h2 : SnowParkDataSet.init tn sch db la2 sa cr = (.ok o2, t2)) :
    o1.dataset._load = o2.dataset._load := by
  have s1 := SnowParkDataSet.init_ok_spec tn sch db la1 sa cr o1 t1 h1
  have s2 := SnowParkDataSet.init_ok_spec tn sch db la2 sa cr o2 t2 h2
  obtain ⟨ht1, hd1, hc1, -, -, hp1, -, hse1, -⟩ := s1
  obtain ⟨ht2, hd2, hc2, -, -, hp2, -, hse2, -⟩ := s2
  have hdb : o1.dataset._database = o2.dataset._database := by rw [hd1, hd2]
  have hsc : o1.dataset._schema = o2.dataset._schema := by rw [hc1, hc2]
  have htn : o1.dataset._table_name = o2.dataset._table_name := by rw [ht1, ht2]
  have hcp : o1.dataset._connection_parameters =
      o2.dataset._connection_parameters := by rw [hp1, hp2, hdb, hsc]
  have hss : o1.dataset._session = o2.dataset._session := by
    rw [hse1, hse2, hcp]
  simp [SnowParkDataSet._load, htn, hdb, hsc, hss]

/-- Witness for C8: the spec example with empty versus nonempty
`load_args` mappings. -/
theorem load_independent_of_load_args_witness :
    exampleOutcome.dataset._load = exampleOutcomeAlt.dataset._load :=
  load_independent_of_load_args "weather_data" none none none
    (some [("x", "y")]) none (some exampleCreds) exampleOutcome
    exampleOutcomeAlt [exampleCreds] [exampleCreds] (by rfl) (by rfl)

/-- C9: describe is idempotent — running it twice in sequence returns
identical outputs — and for every successful construction its output is
exactly the mapping of the table name, resolved database and resolved
schema. -/
theorem describe_idempotent_and_exact (tn : String) (sch db : Option String)
    (la sa : Option PyDict) (cr : Option PyDict) (out : InitOutcome)
    (tr : List PyDict)
    (h : SnowParkDataSet.init tn sch db la sa cr = (.ok out, tr))
    (backend : String → List (List Int)) :
    (out.dataset.runOp backend .describe).1 =
      (((out.dataset.runOp backend .describe).2).runOp backend .describe).1 ∧
    (out.dataset.runOp backend .describe).1 = Output.described
      [("table_name", tn), ("database", out.dataset._database),
       ("schema", out.dataset._schema)] := by
  have hs := SnowParkDataSet.init_ok_spec tn sch db la sa cr out tr h
  refine ⟨rfl, ?_⟩
  simp [SnowParkDataSet.runOp, SnowParkDataSet._describe, hs.1]

/-- Witness for C9 at the spec example. -/
theorem describe_idempotent_and_exact_witness :
    (exampleOutcome.dataset.runOp (fun _ => []) .describe).1 =
      (((exampleOutcome.dataset.runOp (fun _ => []) .describe).2).runOp
        (fun _ => []) .describe).1 ∧
    (exampleOutcome.dataset.runOp (fun _ => []) .describe).1 =
      Output.described
        [("table_name", "weather_data"),
         ("database", exampleOutcome.dataset._database),
         ("schema", exampleOutcome.dataset._schema)] :=
  describe_idempotent_and_exact "weather_data" none none none none
    (some exampleCreds) exampleOutcome [exampleCreds] (by rfl) (fun _ => [])

/-- C10: `_exists` produces a value exactly when the backend reports at
least one row with at least one column for the count query; on an empty
result set (or an empty first row) the unguarded `rows[0][0]` indexing
fails, modelled as `none`. -/
theorem exists_requires_nonempty_result (ds : SnowParkDataSet)
    (backend : String → List (List Int)) :
    ((∃ b, ds._exists backend = some b) ↔
      ∃ c r rest, backend ds.existsQuery = (c :: r) :: rest) ∧
    (backend ds.existsQuery = [] → ds._exists backend = none) := by
  constructor
  · unfold SnowParkDataSet._exists
    cases hq : backend ds.existsQuery with
    | nil => simp [hq]
    | cons r rest =>
      cases r with
      | nil => simp [hq]
      | cons c cs => simp [hq]
  · intro hq
    unfold SnowParkDataSet._exists
    rw [hq]

/-- Witness for C10: an empty result set makes the indexing fail. -/
theorem exists_requires_nonempty_result_witness :
    exampleOutcome.dataset._exists (fun _ => []) = none :=
  (exists_requires_nonempty_result exampleOutcome.dataset (fun _ => [])).2 rfl
